import Mathlib

/-
  Shallow embedding of the cvlint rule-evaluation engine
  (src/cvlint/cli.py and src/cvlint/main.py).

  Conventions of the embedding:
  - Python floats (weights, font sizes, scores, saturations) become ℚ.
  - A Python function that can raise becomes a function into
    `Except PyErr _`; `Except.error` is a raised exception.
  - The PDF/rendering libraries (pypdf, pdfminer, fitz) are external
    collaborators: their outputs are the inputs of the model
    (a `DocEnv` record), and the fact that opening or decoding the
    document can raise is modelled by `Except String _` inputs whose
    error case stands for the raised document-access exception.
  - Text is modelled over ASCII; the spell-check tokenizer regex
    only matches ASCII letters, and word boundaries are approximated
    with the ASCII word characters (letters, digits, underscore).
-/

namespace Cvlint

/-- Python exceptions that the code of main.py distinguishes:
assertion failures, the pytest skip exception raised by disabled
toggle checks, and document-access errors raised by the PDF
libraries (file missing, unreadable, undecodable). -/
inductive PyErr : Type where
  | assertionError (msg : String)
  | skipException (msg : String)
  | docAccessError (msg : String)
deriving DecidableEq, Repr

/-- Python str(e) on an exception: its message. -/
def pyErrStr : PyErr → String
  | PyErr.assertionError m => m
  | PyErr.skipException m => m
  | PyErr.docAccessError m => m

/-- Criterion dataclass of main.py: name, description, check function
and weight.  The check function is represented by its outcome: either
a boolean, or a raised exception. -/
structure Criterion : Type where
  name : String
  description : String
  check_func : Except PyErr Bool
  weight : ℚ
deriving Repr

/-- One entry of the results list built by the check loop in cli.py. -/
structure CriterionResult : Type where
  name : String
  description : String
  weight : ℚ
  passed : Bool
  error : Option String
deriving Repr

/-- Body of the try/except of the loop in cli.py check: a normal
return of the check function gives a result with its boolean and no
error; a raised exception is caught and gives a failed result whose
error field is str(e). -/
def evalCriterion (c : Criterion) : CriterionResult :=
  match c.check_func with
  | Except.ok passed => CriterionResult.mk c.name c.description c.weight passed none
  | Except.error e => CriterionResult.mk c.name c.description c.weight false (some (pyErrStr e))

/-- The validation loop of cli.py check: walks the criteria list in
order, accumulating passed_weight (weight added exactly when the
check function returned True) and the results list. -/
def checkLoop : List Criterion → ℚ × List CriterionResult
  | [] => (0, [])
  | c :: cs =>
    let r := evalCriterion c
    let rest := checkLoop cs
    ((if r.passed then c.weight else 0) + rest.1, r :: rest.2)

/-- total_weight of cli.py: sum of the weights of all evaluated criteria. -/
def totalWeight (cs : List Criterion) : ℚ := (cs.map Criterion.weight).sum

/-- passed_weight accumulated by the loop. -/
def passedWeight (cs : List Criterion) : ℚ := (checkLoop cs).1

/-- score of cli.py: (passed_weight / total_weight) * 100 when
total_weight > 0, else 0. -/
def score (cs : List Criterion) : ℚ :=
  if totalWeight cs > 0 then passedWeight cs / totalWeight cs * 100 else 0

/-- Sum of the weights of the criteria whose check function returned
True (the quantity the specification calls the passed weight). -/
def passedWeightSpec (cs : List Criterion) : ℚ :=
  ((cs.filter (fun c => (evalCriterion c).passed)).map Criterion.weight).sum

theorem passedWeight_cons (c : Criterion) (cs : List Criterion) :
    passedWeight (c :: cs)
      = (if (evalCriterion c).passed then c.weight else 0) + passedWeight cs := rfl

theorem totalWeight_cons (c : Criterion) (cs : List Criterion) :
    totalWeight (c :: cs) = c.weight + totalWeight cs := by
  simp [totalWeight]

theorem checkLoop_fst_eq (cs : List Criterion) :
    (checkLoop cs).1 = passedWeightSpec cs := by
  induction cs with
  | nil => rfl
  | cons c cs ih =>
    show passedWeight (c :: cs) = _
    rw [passedWeight_cons]
    have ih2 : passedWeight cs = passedWeightSpec cs := ih
    unfold passedWeightSpec
    rw [List.filter_cons]
    by_cases h : (evalCriterion c).passed
    · simp [h, ih2, passedWeightSpec]
    · simp [h, ih2, passedWeightSpec]

theorem passedWeight_nonneg (cs : List Criterion)
    (hw : ∀ c ∈ cs, 0 ≤ c.weight) : 0 ≤ passedWeight cs := by
  induction cs with
  | nil => simp [passedWeight, checkLoop]
  | cons c cs ih =>
    have h0 : 0 ≤ c.weight := hw c (List.mem_cons_self c cs)
    have h1 : 0 ≤ passedWeight cs := ih (fun x hx => hw x (List.mem_cons_of_mem c hx))
    rw [passedWeight_cons]
    by_cases h : (evalCriterion c).passed
    · simp only [h, if_pos]; exact add_nonneg h0 h1
    · simp only [h, if_neg]
      simp only [Bool.not_eq_true] at h
      simp [h, h1]

theorem passedWeight_le_total (cs : List Criterion)
    (hw : ∀ c ∈ cs, 0 ≤ c.weight) : passedWeight cs ≤ totalWeight cs := by
  induction cs with
  | nil => simp [passedWeight, checkLoop, totalWeight]
  | cons c cs ih =>
    have h0 : 0 ≤ c.weight := hw c (List.mem_cons_self c cs)
    have h1 : passedWeight cs ≤ totalWeight cs :=
      ih (fun x hx => hw x (List.mem_cons_of_mem c hx))
    rw [passedWeight_cons, totalWeight_cons]
    by_cases h : (evalCriterion c).passed
    · simp only [h, if_pos]
      exact add_le_add_left h1 c.weight
    · simp only [h, if_neg]
      simp only [Bool.not_eq_true] at h
      simp only [h, Bool.false_eq_true, if_false, zero_add]
      linarith

/-- C1.  The score of the check loop equals
100 x passed_weight / total_weight when the total weight is positive,
is 0 when the total weight is 0 (for nonnegative weights: an empty or
all-zero-weight list), the passed weight is the sum of the weights of
the criteria whose predicate returned true, and the score always lies
in [0, 100]. -/
theorem C1_score_weighted (cs : List Criterion)
    (hw : ∀ c ∈ cs, 0 ≤ c.weight) :
    score cs =
      (if 0 < totalWeight cs then 100 * passedWeightSpec cs / totalWeight cs else 0)
    ∧ passedWeight cs = passedWeightSpec cs
    ∧ 0 ≤ score cs ∧ score cs ≤ 100 := by
  have hpw := checkLoop_fst_eq cs
  have hnn := passedWeight_nonneg cs hw
  have hle := passedWeight_le_total cs hw
  constructor
  · unfold score
    by_cases h : 0 < totalWeight cs
    · simp only [h, if_pos, gt_iff_lt]
      rw [passedWeight] at *
      rw [hpw]
      ring
    · simp only [h, if_neg, gt_iff_lt]
      simp [score, h]
  constructor
  · exact hpw
  constructor
  · unfold score
    by_cases h : totalWeight cs > 0
    · simp only [h, if_pos]
      have : 0 ≤ passedWeight cs / totalWeight cs := div_nonneg hnn (le_of_lt h)
      nlinarith
    · simp [h]
  · unfold score
    by_cases h : totalWeight cs > 0
    · simp only [h, if_pos]
      have hdiv : passedWeight cs / totalWeight cs ≤ 1 := (div_le_one h).mpr hle
      nlinarith
    · simp [h]

/-- A concrete two-criterion list used to witness C1. -/
def witnessCriteria : List Criterion :=
  [ Criterion.mk "A" "first" (Except.ok true) 10,
    Criterion.mk "B" "second" (Except.error (PyErr.assertionError "boom")) 5 ]

/-- Witness for C1 at a concrete two-criterion list. -/
theorem C1_score_weighted_witness :
    (∀ c ∈ witnessCriteria, 0 ≤ c.weight)
    ∧ (score witnessCriteria =
        (if 0 < totalWeight witnessCriteria then
          100 * passedWeightSpec witnessCriteria / totalWeight witnessCriteria else 0)
      ∧ passedWeight witnessCriteria = passedWeightSpec witnessCriteria
      ∧ 0 ≤ score witnessCriteria ∧ score witnessCriteria ≤ 100) :=
  ⟨by decide, C1_score_weighted witnessCriteria (by decide)⟩

/-- C7.  The check loop of cli.py evaluates every criterion of the
list in order and in isolation: its results list is exactly the map
of the per-criterion evaluation over the input list (so a failure of
one criterion never removes nor changes the result of another), and a
criterion whose check function raises any exception yields a failed
result carrying the exception message as its error field. -/
theorem C7_engine_isolation (cs : List Criterion) :
    (checkLoop cs).2 = cs.map evalCriterion
    ∧ ∀ (n d : String) (w : ℚ) (e : PyErr),
        evalCriterion (Criterion.mk n d (Except.error e) w)
          = CriterionResult.mk n d w false (some (pyErrStr e)) := by
  constructor
  · induction cs with
    | nil => rfl
    | cons c cs ih => simp [checkLoop, ih]
  · intro n d w e
    rfl

/-
  Document model.  The external PDF libraries are collaborators: the
  data they hand to main.py is the input of the model.  Opening or
  decoding the document can raise, so the parsed document arrives as
  an `Except String PdfData` whose error case is the raised
  document-access exception (FileNotFoundError, PdfReadError, ...).
-/

/-- One page as main.py consumes it: the URI strings of its link
annotations, the names of its image XObjects (the resources whose
Subtype is Image), and its extracted text. -/
structure PdfPage : Type where
  links : List String
  images : List String
  text : String
deriving Repr

/-- A parsed document as pypdf hands it to main.py. -/
structure PdfData : Type where
  pages : List PdfPage
  hasMetadata : Bool
  author : Option String
  title : Option String
deriving Repr

/-- Python startswith on strings. -/
def strStartsWith (s p : String) : Bool := p.data.isPrefixOf s.data

/-- Python endswith on strings. -/
def strEndsWith (s p : String) : Bool := p.data.isSuffixOf s.data

/-- MAX_PAGES of main.py, declared as the max number of pages allowed
in the PDF; note that test_pdf_page_count does not read it. -/
def MAX_PAGES : ℕ := 1

/-- MIN_FONT default of main.py. -/
def MIN_FONT : ℚ := 8

/-- MAX_FONT default of main.py. -/
def MAX_FONT : ℚ := 21

/-- MAX_FILE_SIZE_KB default of main.py. -/
def MAX_FILE_SIZE_KB : ℚ := 500

/-- test_pdf_exists of main.py: asserts that the path is a file. -/
def test_pdf_exists (pathIsFile : Bool) : Except PyErr Unit :=
  if pathIsFile then Except.ok ()
  else Except.error (PyErr.assertionError "CV PDF not found at PDF_PATH")

/-- test_pdf_page_count of main.py: asserts len(pdf.pages) <= 1.  The
bound is the literal 1, not MAX_PAGES. -/
def test_pdf_page_count (reader : Except String PdfData) : Except PyErr Unit :=
  match reader with
  | Except.error e => Except.error (PyErr.docAccessError e)
  | Except.ok pdf =>
    if pdf.pages.length ≤ 1 then Except.ok ()
    else Except.error (PyErr.assertionError
      ("CV is " ++ toString pdf.pages.length ++ " pages (should be <=1 page)"))

/-- test_pdf_file_size of main.py: asserts size in KB <= MAX_FILE_SIZE_KB. -/
def test_pdf_file_size (maxFileSizeKB : ℚ) (fileSizeKB : Except String ℚ) :
    Except PyErr Unit :=
  match fileSizeKB with
  | Except.error e => Except.error (PyErr.docAccessError e)
  | Except.ok sz =>
    if sz ≤ maxFileSizeKB then Except.ok ()
    else Except.error (PyErr.assertionError
      ("CV file size is " ++ toString sz ++ "KB (should be <=" ++ toString maxFileSizeKB ++ "KB)"))

/-- test_pdf_links_https of main.py: skips (raising the pytest skip
exception) when HTTPS enforcement is disabled, else collects the link
URIs of all pages in order and asserts startswith https on the first
offender. -/
def test_pdf_links_https (enforce_https : Bool) (reader : Except String PdfData) :
    Except PyErr Unit :=
  if enforce_https = false then Except.error (PyErr.skipException "HTTPS enforcement is disabled")
  else match reader with
  | Except.error e => Except.error (PyErr.docAccessError e)
  | Except.ok pdf =>
    let links := (pdf.pages.map PdfPage.links).flatten
    match links.find? (fun l => !(strStartsWith l "https://")) with
    | some l => Except.error (PyErr.assertionError ("Link " ++ l ++ " does not use HTTPS"))
    | none => Except.ok ()

/-- Page loop of test_pdf_no_images: first image XObject found on any
page (pages enumerated from 0, reported 1-based) raises. -/
def scanImages : ℕ → List PdfPage → Except PyErr Unit
  | _, [] => Except.ok ()
  | pageNum, p :: rest =>
    match p.images with
    | [] => scanImages (pageNum + 1) rest
    | objName :: _ => Except.error (PyErr.assertionError
        ("Found image " ++ objName ++ " on page " ++ toString (pageNum + 1)
          ++ ", but NO_IMAGES is True"))

/-- test_pdf_no_images of main.py: skips when image checking is
disabled, else fails on the first embedded image. -/
def test_pdf_no_images (no_images : Bool) (reader : Except String PdfData) :
    Except PyErr Unit :=
  if no_images = false then Except.error (PyErr.skipException "Image checking is disabled")
  else match reader with
  | Except.error e => Except.error (PyErr.docAccessError e)
  | Except.ok pdf => scanImages 0 pdf.pages

/-- test_pdf_background_white of main.py: skips when background
checking is disabled, else samples pixel (0,0) of the first rendered
page and asserts it is pure white. -/
def test_pdf_background_white (background_white : Bool)
    (bgPixel : Except String (ℕ × ℕ × ℕ)) : Except PyErr Unit :=
  if background_white = false then
    Except.error (PyErr.skipException "Background color checking is disabled")
  else match bgPixel with
  | Except.error e => Except.error (PyErr.docAccessError e)
  | Except.ok px =>
    if px = (255, 255, 255) then Except.ok ()
    else Except.error (PyErr.assertionError
      ("Expected white background, got RGB(" ++ toString px.1 ++ ", "
        ++ toString px.2.1 ++ ", " ++ toString px.2.2 ++ ")"))

/-- Saturation channel of rgb_to_hsv of main.py (colorsys formula on
channel values scaled to [0,1]). -/
def rgb_to_hsv_s (px : ℕ × ℕ × ℕ) : ℚ :=
  let r : ℚ := px.1 / 255
  let g : ℚ := px.2.1 / 255
  let b : ℚ := px.2.2 / 255
  let maxc := max r (max g b)
  let minc := min r (min g b)
  if minc = maxc then 0 else (maxc - minc) / maxc

/-- Pixel loop of test_pdf_all_pixels_no_saturation on one page:
index and saturation of the first pixel above tolerance. -/
def scanRow (tol : ℚ) : ℕ → List (ℕ × ℕ × ℕ) → Option (ℕ × ℚ)
  | _, [] => none
  | i, px :: rest =>
    if tol < rgb_to_hsv_s px then some (i, rgb_to_hsv_s px) else scanRow tol (i + 1) rest

/-- Page loop of test_pdf_all_pixels_no_saturation (pages enumerated
from 1). -/
def scanPixels (tol : ℚ) : ℕ → List (List (ℕ × ℕ × ℕ)) → Except PyErr Unit
  | _, [] => Except.ok ()
  | pageNum, pxs :: rest =>
    match scanRow tol 0 pxs with
    | some (i, s) => Except.error (PyErr.assertionError
        ("Pixel with saturation " ++ toString s ++ " found on page "
          ++ toString pageNum ++ " at pixel index " ++ toString i))
    | none => scanPixels tol (pageNum + 1) rest

/-- test_pdf_all_pixels_no_saturation of main.py: skips when
grayscale checking is disabled, else fails on the first pixel of any
rendered page whose saturation exceeds the tolerance (default 0.01). -/
def test_pdf_all_pixels_no_saturation (grayscale_colors : Bool) (tol : ℚ)
    (pagePixels : Except String (List (List (ℕ × ℕ × ℕ)))) : Except PyErr Unit :=
  if grayscale_colors = false then
    Except.error (PyErr.skipException "Grayscale color checking is disabled")
  else match pagePixels with
  | Except.error e => Except.error (PyErr.docAccessError e)
  | Except.ok pages => scanPixels tol 1 pages

/-- Page-text loop of test_pdf_structure (pages enumerated from 0,
reported 1-based). -/
def scanTexts : ℕ → List PdfPage → Except PyErr Unit
  | _, [] => Except.ok ()
  | n, p :: rest =>
    if p.text.trim = "" then
      Except.error (PyErr.assertionError
        ("Page " ++ toString (n + 1) ++ " should contain readable text"))
    else scanTexts (n + 1) rest

/-- test_pdf_structure of main.py: metadata present, author and
title nonblank, every page yields nonblank extracted text. -/
def test_pdf_structure (reader : Except String PdfData) : Except PyErr Unit :=
  match reader with
  | Except.error e => Except.error (PyErr.docAccessError e)
  | Except.ok pdf =>
    if pdf.hasMetadata = false then
      Except.error (PyErr.assertionError "PDF should have metadata")
    else if (match pdf.author with | none => true | some a => a.trim = "") then
      Except.error (PyErr.assertionError "PDF should have a valid Author metadata field")
    else if (match pdf.title with | none => true | some t => t.trim = "") then
      Except.error (PyErr.assertionError "PDF should have a valid Title metadata field")
    else scanTexts 0 pdf.pages

/-- test_pdf_not_corrupted of main.py: any exception while reading
the document and extracting its text is converted, inside this test,
to an assertion failure. -/
def test_pdf_not_corrupted (reader : Except String PdfData) : Except PyErr Unit :=
  match reader with
  | Except.error e =>
    Except.error (PyErr.assertionError ("PDF appears to be corrupted: " ++ e))
  | Except.ok _ => Except.ok ()

/-- Shape of the wrappers of main.py that catch only AssertionError:
an assertion failure becomes False, a normal return True, and every
other exception propagates. -/
def catchAssertion (r : Except PyErr Unit) : Except PyErr Bool :=
  match r with
  | Except.ok () => Except.ok true
  | Except.error (PyErr.assertionError _) => Except.ok false
  | Except.error e => Except.error e

/-- Shape of the wrappers of main.py that catch AssertionError and
pytest.skip.Exception: both become False; every other exception
propagates. -/
def catchAssertionSkip (r : Except PyErr Unit) : Except PyErr Bool :=
  match r with
  | Except.ok () => Except.ok true
  | Except.error (PyErr.assertionError _) => Except.ok false
  | Except.error (PyErr.skipException _) => Except.ok false
  | Except.error e => Except.error e

/-- test_pdf_exists_wrapper of main.py. -/
def test_pdf_exists_wrapper (pathIsFile : Bool) : Except PyErr Bool :=
  catchAssertion (test_pdf_exists pathIsFile)

/-- test_pdf_page_count_wrapper of main.py: catches only AssertionError. -/
def test_pdf_page_count_wrapper (reader : Except String PdfData) : Except PyErr Bool :=
  catchAssertion (test_pdf_page_count reader)

/-- test_pdf_file_size_wrapper of main.py. -/
def test_pdf_file_size_wrapper (maxFileSizeKB : ℚ) (fileSizeKB : Except String ℚ) :
    Except PyErr Bool :=
  catchAssertion (test_pdf_file_size maxFileSizeKB fileSizeKB)

/-- test_pdf_links_https_wrapper of main.py: catches AssertionError
and the pytest skip exception, returning False for both. -/
def test_pdf_links_https_wrapper (enforce_https : Bool) (reader : Except String PdfData) :
    Except PyErr Bool :=
  catchAssertionSkip (test_pdf_links_https enforce_https reader)

/-- test_pdf_no_images_wrapper of main.py. -/
def test_pdf_no_images_wrapper (no_images : Bool) (reader : Except String PdfData) :
    Except PyErr Bool :=
  catchAssertionSkip (test_pdf_no_images no_images reader)

/-- test_pdf_background_white_wrapper of main.py. -/
def test_pdf_background_white_wrapper (background_white : Bool)
    (bgPixel : Except String (ℕ × ℕ × ℕ)) : Except PyErr Bool :=
  catchAssertionSkip (test_pdf_background_white background_white bgPixel)

/-- test_pdf_all_pixels_no_saturation_wrapper of main.py. -/
def test_pdf_all_pixels_no_saturation_wrapper (grayscale_colors : Bool) (tol : ℚ)
    (pagePixels : Except String (List (List (ℕ × ℕ × ℕ)))) : Except PyErr Bool :=
  catchAssertionSkip (test_pdf_all_pixels_no_saturation grayscale_colors tol pagePixels)

/-- test_pdf_structure_wrapper of main.py. -/
def test_pdf_structure_wrapper (reader : Except String PdfData) : Except PyErr Bool :=
  catchAssertion (test_pdf_structure reader)

/-- test_pdf_not_corrupted_wrapper of main.py. -/
def test_pdf_not_corrupted_wrapper (reader : Except String PdfData) : Except PyErr Bool :=
  catchAssertion (test_pdf_not_corrupted reader)

/-- C2.  The claim says a disabled toggle makes the corresponding
criterion predicate vacuously pass (return true).  In the code each
disabled check raises pytest.skip.Exception, and the wrapper catches
that exception and returns False: with a toggle disabled the
criterion FAILS for every document, including documents that would
satisfy the check.  This theorem evaluates the code at the failing
inputs: all four toggle wrappers return false, for every document,
when their toggle is disabled. -/
theorem C2_disabled_toggle_returns_false :
    ∀ (reader : Except String PdfData) (bgPixel : Except String (ℕ × ℕ × ℕ))
      (pagePixels : Except String (List (List (ℕ × ℕ × ℕ)))) (tol : ℚ),
      test_pdf_links_https_wrapper false reader = Except.ok false
      ∧ test_pdf_no_images_wrapper false reader = Except.ok false
      ∧ test_pdf_background_white_wrapper false bgPixel = Except.ok false
      ∧ test_pdf_all_pixels_no_saturation_wrapper false tol pagePixels = Except.ok false := by
  intro reader bgPixel pagePixels tol
  exact ⟨rfl, rfl, rfl, rfl⟩

/-- A two-page document used to exhibit the page-count bug. -/
def twoPagePdf : PdfData :=
  PdfData.mk
    [PdfPage.mk [] [] "first page text", PdfPage.mk [] [] "second page text"]
    true (some "Author") (some "Title")

/-- C6.  The claim says the page-count criterion passes iff the page
count is at most the configured maximum, for any configured value.
The code compares against the literal 1 and never reads the
configured maximum (MAX_PAGES in main.py, --max-pages in cli.py):
with the maximum configured to 2, a two-page document should pass per
the claim, but the check fails it.  First conjunct: the actual
behavior is page count <= 1, regardless of configuration.  The last
two conjuncts evaluate the code at the failing input. -/
theorem C6_page_count_ignores_configured_max :
    (∀ pdf : PdfData,
      test_pdf_page_count_wrapper (Except.ok pdf) = Except.ok (decide (pdf.pages.length ≤ 1)))
    ∧ MAX_PAGES = 1
    ∧ twoPagePdf.pages.length = 2
    ∧ test_pdf_page_count_wrapper (Except.ok twoPagePdf) = Except.ok false := by
  refine ⟨?_, rfl, rfl, rfl⟩
  intro pdf
  by_cases h : pdf.pages.length ≤ 1
  · simp [test_pdf_page_count_wrapper, test_pdf_page_count, catchAssertion, h]
  · simp [test_pdf_page_count_wrapper, test_pdf_page_count, catchAssertion, h]

/-
  Font-size model.  pdfminer hands test_pdf_font_sizes a sequence of
  page layouts; each page contains elements; text container elements
  (LTTextBox) contain text lines; a line contains LTChar items (one
  glyph, with text and font size) and non-char items (LTAnno).
-/

/-- One item of a pdfminer text line: a glyph with a size, or an
annotation without one. -/
inductive LineItem : Type where
  | ltChar (text : String) (size : ℚ)
  | ltAnno (text : String)
deriving Repr

/-- One element of a pdfminer page layout: a text container holding
text lines, or any other element (figure, rect, ...), which the font
check ignores. -/
inductive PageElement : Type where
  | textContainer (lines : List (List LineItem))
  | other
deriving Repr

/-- One pdfminer page layout with its pageid. -/
structure PageLayout : Type where
  pageid : ℕ
  elements : List PageElement
deriving Repr

/-- Size of an LTChar item; none for non-char items. -/
def charSize : LineItem → Option ℚ
  | LineItem.ltChar _ s => some s
  | LineItem.ltAnno _ => none

/-- All glyph sizes of the lines of one text container, in order. -/
def linesSizes (lines : List (List LineItem)) : List ℚ :=
  (lines.map (fun line => line.filterMap charSize)).flatten

/-- All glyph sizes of one page element. -/
def elementSizes : PageElement → List ℚ
  | PageElement.textContainer lines => linesSizes lines
  | PageElement.other => []

/-- All glyph sizes of one page. -/
def pageSizes (p : PageLayout) : List ℚ := (p.elements.map elementSizes).flatten

/-- All glyph sizes of the document, page order then element order
then line order then glyph order. -/
def glyphSizes (pages : List PageLayout) : List ℚ := (pages.map pageSizes).flatten

/-- The bad_chars/bad_sizes collection of test_pdf_font_sizes for one
text element: glyphs with font_size < min_size or font_size >
max_size, with their text. -/
def badCharsOf (minS maxS : ℚ) (lines : List (List LineItem)) : List (String × ℚ) :=
  (lines.map (fun line => line.filterMap (fun it =>
    match it with
    | LineItem.ltChar t s => if s < minS ∨ maxS < s then some (t, s) else none
    | LineItem.ltAnno _ => none))).flatten

/-- The per-element error entry of test_pdf_font_sizes: present
exactly when the element has bad chars, carrying the page number, the
too-small/too-big status and the offending text. -/
def elementError (minS maxS : ℚ) (pageNum : ℕ) (lines : List (List LineItem)) :
    Option String :=
  let bad := badCharsOf minS maxS lines
  if bad.isEmpty then none
  else
    let badText := (String.join (bad.map Prod.fst)).trim
    let tooSmall := bad.any (fun p => decide (p.2 < minS))
    let tooBig := bad.any (fun p => decide (maxS < p.2))
    let status :=
      (if tooSmall then ["smaller than minimum " ++ toString minS] else [])
        ++ (if tooBig then ["larger than maximum " ++ toString maxS] else [])
    some ("Page " ++ toString pageNum ++ ": Text with font size "
      ++ String.intercalate " and " status ++ ": " ++ badText)

/-- Per-page error entries of test_pdf_font_sizes. -/
def pageErrors (minS maxS : ℚ) (p : PageLayout) : List String :=
  p.elements.filterMap (fun e =>
    match e with
    | PageElement.textContainer lines => elementError minS maxS p.pageid lines
    | PageElement.other => none)

/-- The errors list test_pdf_font_sizes accumulates over all pages. -/
def fontErrors (minS maxS : ℚ) (pages : List PageLayout) : List String :=
  (pages.map (pageErrors minS maxS)).flatten

/-- test_pdf_font_sizes of main.py: collects all font-size errors and
raises an AssertionError joining them when any exist. -/
def test_pdf_font_sizes (minS maxS : ℚ) (minerPages : Except String (List PageLayout)) :
    Except PyErr Unit :=
  match minerPages with
  | Except.error e => Except.error (PyErr.docAccessError e)
  | Except.ok pages =>
    let errors := fontErrors minS maxS pages
    if errors.isEmpty then Except.ok ()
    else Except.error (PyErr.assertionError (String.intercalate "\n" errors))

/-- test_pdf_font_sizes_wrapper of main.py. -/
def test_pdf_font_sizes_wrapper (minS maxS : ℚ)
    (minerPages : Except String (List PageLayout)) : Except PyErr Bool :=
  catchAssertion (test_pdf_font_sizes minS maxS minerPages)

theorem badCharsOf_eq_nil (minS maxS : ℚ) (lines : List (List LineItem)) :
    badCharsOf minS maxS lines = [] ↔ ∀ s ∈ linesSizes lines, minS ≤ s ∧ s ≤ maxS := by
  constructor
  · intro h s hs
    rw [linesSizes, List.mem_flatten] at hs
    obtain ⟨l, hl, hsl⟩ := hs
    rw [List.mem_map] at hl
    obtain ⟨line, hline, rfl⟩ := hl
    rw [List.mem_filterMap] at hsl
    obtain ⟨it, hit, hcs⟩ := hsl
    have h2 : line.filterMap (fun it =>
        match it with
        | LineItem.ltChar t s => if s < minS ∨ maxS < s then some (t, s) else none
        | LineItem.ltAnno _ => none) = [] := by
      refine List.flatten_eq_nil_iff.mp h _ ?_
      exact List.mem_map_of_mem _ hline
    have h3 := List.filterMap_eq_nil_iff.mp h2 it hit
    cases it with
    | ltAnno t => simp [charSize] at hcs
    | ltChar t s0 =>
      simp only [charSize, Option.some.injEq] at hcs
      subst hcs
      by_cases hbad : s0 < minS ∨ maxS < s0
      · simp [hbad] at h3
      · push_neg at hbad
        exact hbad
  · intro h
    rw [badCharsOf, List.flatten_eq_nil_iff]
    intro l hl
    rw [List.mem_map] at hl
    obtain ⟨line, hline, rfl⟩ := hl
    rw [List.filterMap_eq_nil_iff]
    intro it hit
    cases it with
    | ltAnno t => rfl
    | ltChar t s =>
      have hs : s ∈ linesSizes lines := by
        rw [linesSizes, List.mem_flatten]
        refine ⟨line.filterMap charSize, List.mem_map_of_mem _ hline, ?_⟩
        rw [List.mem_filterMap]
        exact ⟨LineItem.ltChar t s, hit, rfl⟩
      obtain ⟨h1, h2⟩ := h s hs
      have : ¬(s < minS ∨ maxS < s) := by
        push_neg
        exact ⟨h1, h2⟩
      simp [this]

theorem elementError_eq_none (minS maxS : ℚ) (pid : ℕ) (lines : List (List LineItem)) :
    elementError minS maxS pid lines = none ↔ badCharsOf minS maxS lines = [] := by
  unfold elementError
  by_cases h : (badCharsOf minS maxS lines).isEmpty
  · simp [h, List.isEmpty_iff.mp h]
  · simp only [h]
    simp only [Bool.false_eq_true, if_false]
    constructor
    · intro hc; exact absurd hc (Option.some_ne_none _)
    · intro hc; exact absurd (List.isEmpty_iff.mpr hc) h

theorem fontErrors_eq_nil (minS maxS : ℚ) (pages : List PageLayout) :
    fontErrors minS maxS pages = [] ↔ ∀ s ∈ glyphSizes pages, minS ≤ s ∧ s ≤ maxS := by
  unfold fontErrors glyphSizes
  rw [List.flatten_eq_nil_iff]
  constructor
  · intro h s hs
    rw [List.mem_flatten] at hs
    obtain ⟨l, hl, hsl⟩ := hs
    rw [List.mem_map] at hl
    obtain ⟨p, hp, rfl⟩ := hl
    have hpe : pageErrors minS maxS p = [] := h _ (List.mem_map_of_mem _ hp)
    rw [pageSizes, List.mem_flatten] at hsl
    obtain ⟨l2, hl2, hsl2⟩ := hsl
    rw [List.mem_map] at hl2
    obtain ⟨e, he, rfl⟩ := hl2
    cases e with
    | other => simp [elementSizes] at hsl2
    | textContainer lines =>
      have hen : elementError minS maxS p.pageid lines = none := by
        have := List.filterMap_eq_nil_iff.mp hpe _ he
        simpa using this
      have hbad := (elementError_eq_none minS maxS p.pageid lines).mp hen
      exact (badCharsOf_eq_nil minS maxS lines).mp hbad s (by simpa [elementSizes] using hsl2)
  · intro h l hl
    rw [List.mem_map] at hl
    obtain ⟨p, hp, rfl⟩ := hl
    rw [pageErrors, List.filterMap_eq_nil_iff]
    intro e he
    cases e with
    | other => rfl
    | textContainer lines =>
      show elementError minS maxS p.pageid lines = none
      rw [elementError_eq_none, badCharsOf_eq_nil]
      intro s hs
      refine h s ?_
      rw [List.mem_flatten]
      refine ⟨pageSizes p, List.mem_map_of_mem _ hp, ?_⟩
      rw [pageSizes, List.mem_flatten]
      exact ⟨linesSizes lines, by
        refine List.mem_map.mpr ⟨PageElement.textContainer lines, he, rfl⟩, by
        simpa [elementSizes] using hs⟩

theorem font_wrapper_eq (minS maxS : ℚ) (pages : List PageLayout) :
    test_pdf_font_sizes_wrapper minS maxS (Except.ok pages)
      = Except.ok (fontErrors minS maxS pages).isEmpty := by
  unfold test_pdf_font_sizes_wrapper test_pdf_font_sizes catchAssertion
  by_cases h : (fontErrors minS maxS pages).isEmpty
  · simp [h]
  · simp [h]

/-- C5.  The font-size check passes (its wrapper returns true on a
decodable document) iff no glyph on any page has a size strictly
below the minimum or strictly above the maximum, that is, iff every
glyph size s satisfies min <= s and s <= max: the bounds are
inclusive, and a document or page without glyphs (zero text runs)
vacuously passes since its glyph-size list is empty. -/
theorem C5_font_size_check_iff (minS maxS : ℚ) (pages : List PageLayout) :
    test_pdf_font_sizes_wrapper minS maxS (Except.ok pages) = Except.ok true
      ↔ ∀ s ∈ glyphSizes pages, minS ≤ s ∧ s ≤ maxS := by
  rw [font_wrapper_eq]
  constructor
  · intro h
    have h2 : (fontErrors minS maxS pages).isEmpty = true := by
      have := congrArg (fun r => match r with | Except.ok b => b | Except.error _ => false) h
      simpa using this.symm
    exact (fontErrors_eq_nil minS maxS pages).mp (List.isEmpty_iff.mp h2)
  · intro h
    have h2 := (fontErrors_eq_nil minS maxS pages).mpr h
    simp [h2]

/-
  Spell/capitalization check (test_pdf_spell_check of main.py).
  The external pyspellchecker collaborator is modelled at its default
  configuration (case_sensitive=False), exactly as main.py constructs
  it with SpellChecker(): its base dictionary is an abstract predicate
  queried on the lowercased token; word_frequency.load_words stores
  the lowercase form of each loaded word; spell.known([w]) returns a
  nonempty set iff the lowercased w is in the dictionary.
-/

/-- Python str.lower on the ASCII text this model covers: each
character lowercased. -/
def pyLower (s : String) : String := String.mk (s.data.map Char.toLower)

/-- Python str.islower on ASCII text: at least one cased (letter)
character and no uppercase character. -/
def pyIslower (s : String) : Bool :=
  s.data.any Char.isAlpha && s.data.all (fun c => !c.isUpper)

/-- Python str.capitalize on ASCII text: first character uppercased,
the rest lowercased. -/
def pyCapitalize (s : String) : String :=
  match s.data with
  | [] => ""
  | c :: cs => String.mk (c.toUpper :: cs.map Char.toLower)

/-- The allowed_words set built by test_pdf_spell_check: an
all-lowercase custom word contributes itself and its capitalized
form; a custom word with specific capitalization contributes only
itself. -/
def allowedWords (customWords : List String) : List String :=
  customWords.flatMap (fun w => if pyIslower w then [w, pyCapitalize w] else [w])

/-- Truth of spell.known([w]) after
spell.word_frequency.load_words(allowed_words): the base dictionary
holds the lowercased w, or some loaded word has the same lowercase
form (pyspellchecker lowercases both on load and on lookup). -/
def spellKnown (baseDict : String → Bool) (loaded : List String) (w : String) : Bool :=
  baseDict (pyLower w) || loaded.any (fun a => pyLower a == pyLower w)

/-- ASCII word characters, approximating the word class of the
tokenizing regex: letters, digits, underscore. -/
def isWordChar (c : Char) : Bool := c.isAlphanum || c == '_'

/-- Splits a character list into its maximal runs of word characters,
in order (the accumulator holds the current run reversed). -/
def wordRunsAux : List Char → List Char → List (List Char)
  | [], acc => if acc.isEmpty then [] else [acc.reverse]
  | c :: cs, acc =>
    if isWordChar c then wordRunsAux cs (c :: acc)
    else if acc.isEmpty then wordRunsAux cs []
    else acc.reverse :: wordRunsAux cs []

/-- Token extraction of test_pdf_spell_check: the regex matches the
maximal ASCII-letter runs delimited by word boundaries, preserving
case and order (duplicates retained).  A maximal word-character run
containing a digit or underscore has no interior word boundary, so
only the all-letter runs are matched. -/
def original_words (full_text : String) : List String :=
  ((wordRunsAux full_text.data []).filter (fun r => r.all Char.isAlpha)).map
    (fun r => String.mk r)

/-- The capitalization scan of test_pdf_spell_check over the custom
word list, in list order: the first custom word matching the token
case-insensitively but not exactly and not all-lowercase yields the
error entry; all-lowercase case-insensitive matches are passed over
without breaking the loop. -/
def capScan (customWords : List String) (word : String) : Option String :=
  customWords.findSome? (fun cw =>
    if pyLower word = pyLower cw ∧ word ≠ cw ∧ pyIslower cw = false then
      some ("Found " ++ word ++ " but should be " ++ cw)
    else none)

/-- Python substring containment (pat in l) on character lists. -/
def containsSub (pat : List Char) : List Char → Bool
  | [] => pat.isEmpty
  | c :: tl => pat.isPrefixOf (c :: tl) || containsSub pat tl

/-- The residual filters of test_pdf_spell_check as the source writes
them: the lowercased token starts or ends with a literal period, or
contains one of the technical substrings js, sql, xml, json. -/
def residualSkip (word : String) : Bool :=
  strStartsWith (pyLower word) "." || strEndsWith (pyLower word) "."
    || ["js", "sql", "xml", "json"].any
        (fun tech => containsSub tech.data (pyLower word).data)

/-- The classification loop of test_pdf_spell_check over the ordered
token list: returns (actual_misspelled before deduplication,
capitalization_errors), both in occurrence order.  Per token: skip
tokens shorter than 3 characters (the dead skip of single-character
tokens is subsumed); skip tokens found in the allowed set (exact) or
accepted by the spellchecker oracle; otherwise record a
capitalization error when the custom-word scan finds one; otherwise
apply the residual filters and record the survivors as misspelled. -/
def processWords (baseDict : String → Bool) (customWords allowed : List String) :
    List String → List String × List String
  | [] => ([], [])
  | w :: ws =>
    let rest := processWords baseDict customWords allowed ws
    if w.length < 3 then rest
    else if allowed.contains w || spellKnown baseDict allowed w then rest
    else match capScan customWords w with
      | some msg => (rest.1, msg :: rest.2)
      | none => if residualSkip w then rest else (w :: rest.1, rest.2)

/-- The dict.fromkeys deduplication of the misspelled list: keeps the
first occurrence of each entry, preserving order. -/
def dedupFirst (seen : List String) : List String → List String
  | [] => []
  | x :: xs =>
    if seen.contains x then dedupFirst seen xs
    else x :: dedupFirst (x :: seen) xs

/-- Outcome of test_pdf_spell_check on the extracted full text: the
deduplicated misspelled list and the capitalization-error list. -/
def spell_check_outcome (baseDict : String → Bool) (customWords : List String)
    (full_text : String) : List String × List String :=
  let allowed := allowedWords customWords
  let pair := processWords baseDict customWords allowed (original_words full_text)
  (dedupFirst [] pair.1, pair.2)

/-- test_pdf_spell_check of main.py: builds the allowed words, loads
them into the spellchecker, concatenates the page texts, extracts and
classifies the tokens, and asserts that both error lists are empty. -/
def test_pdf_spell_check (baseDict : String → Bool) (customWords : List String)
    (reader : Except String PdfData) : Except PyErr Unit :=
  match reader with
  | Except.error e => Except.error (PyErr.docAccessError e)
  | Except.ok pdf =>
    let full_text := String.join (pdf.pages.map PdfPage.text)
    let out := spell_check_outcome baseDict customWords full_text
    let all_errors :=
      (if out.1.isEmpty then [] else
        ["Misspelled words: " ++ String.intercalate ", " out.1])
        ++ (if out.2.isEmpty then [] else
          ["Capitalization errors: " ++ String.intercalate ", " out.2])
    if all_errors.isEmpty then Except.ok ()
    else Except.error (PyErr.assertionError (String.intercalate "; " all_errors))

/-- test_pdf_spell_check_wrapper of main.py: catches only AssertionError. -/
def test_pdf_spell_check_wrapper (baseDict : String → Bool) (customWords : List String)
    (reader : Except String PdfData) : Except PyErr Bool :=
  catchAssertion (test_pdf_spell_check baseDict customWords reader)

/-- The ValidationConfig record cli.py builds from its options (the
module-level configuration constants of main.py; the document locator
is carried separately by DocEnv). -/
structure ValidationConfig : Type where
  max_pages : ℕ
  max_file_size_kb : ℚ
  min_font : ℚ
  max_font : ℚ
  enforce_https : Bool
  no_images : Bool
  background_white : Bool
  grayscale_colors : Bool
  custom_words : List String

/-- Default configuration values of main.py and cli.py. -/
def defaultConfig : ValidationConfig :=
  ValidationConfig.mk MAX_PAGES MAX_FILE_SIZE_KB MIN_FONT MAX_FONT true true true true []

/-- What the external libraries yield for one document: the file
probe, the pypdf parse, the pdfminer page layouts, the stat size, the
fitz renderings, and the spellchecker base dictionary. -/
structure DocEnv : Type where
  pathIsFile : Bool
  reader : Except String PdfData
  minerPages : Except String (List PageLayout)
  fileSizeKB : Except String ℚ
  bgPixel : Except String (ℕ × ℕ × ℕ)
  pagePixels : Except String (List (List (ℕ × ℕ × ℕ)))
  baseDict : String → Bool

/-- create_criteria_list of main.py: the ordered battery of the 11
criteria with their names, descriptions and weights, each check
function wired to its wrapper (the page-count check ignores
cfg.max_pages, as in the source; the saturation check runs at its
default tolerance 0.01). -/
def create_criteria_list (cfg : ValidationConfig) (env : DocEnv) : List Criterion :=
  [ Criterion.mk "PDF File Exists"
      "Validates that the CV PDF file exists at the specified path"
      (test_pdf_exists_wrapper env.pathIsFile) 10,
    Criterion.mk "Single Page Limit"
      "Ensures the CV is exactly one page or less"
      (test_pdf_page_count_wrapper env.reader) 15,
    Criterion.mk "File Size Constraint"
      ("Validates that the PDF file size is within "
        ++ toString cfg.max_file_size_kb ++ "KB limit")
      (test_pdf_file_size_wrapper cfg.max_file_size_kb env.fileSizeKB) 8,
    Criterion.mk "Font Size Range"
      ("Ensures all fonts are between " ++ toString cfg.min_font ++ "pt and "
        ++ toString cfg.max_font ++ "pt")
      (test_pdf_font_sizes_wrapper cfg.min_font cfg.max_font env.minerPages) 12,
    Criterion.mk "HTTPS Links Only"
      "Validates that all links in the PDF use HTTPS protocol"
      (test_pdf_links_https_wrapper cfg.enforce_https env.reader) 7,
    Criterion.mk "No Embedded Images"
      "Ensures the PDF contains no embedded images"
      (test_pdf_no_images_wrapper cfg.no_images env.reader) 5,
    Criterion.mk "White Background"
      "Validates that the PDF has a white background"
      (test_pdf_background_white_wrapper cfg.background_white env.bgPixel) 6,
    Criterion.mk "Grayscale Colors Only"
      "Ensures all colors in the PDF are grayscale (no saturation)"
      (test_pdf_all_pixels_no_saturation_wrapper cfg.grayscale_colors (1 / 100)
        env.pagePixels) 8,
    Criterion.mk "Spell Check and Capitalization"
      "Validates spelling and proper capitalization of technical terms"
      (test_pdf_spell_check_wrapper env.baseDict cfg.custom_words env.reader) 20,
    Criterion.mk "PDF Structure and Metadata"
      "Validates PDF metadata (author, title) and text readability"
      (test_pdf_structure_wrapper env.reader) 9,
    Criterion.mk "PDF Integrity"
      "Ensures the PDF is not corrupted and can be properly read"
      (test_pdf_not_corrupted_wrapper env.reader) 10 ]

/-- Every weight of the registry is nonnegative, so the score bounds
of C1 apply to every list the engine actually evaluates (any
name-filtered sublist included). -/
theorem create_criteria_list_weights_nonneg (cfg : ValidationConfig) (env : DocEnv) :
    ∀ c ∈ create_criteria_list cfg env, 0 ≤ c.weight := by
  intro c hc
  simp only [create_criteria_list, List.mem_cons, List.mem_singleton] at hc
  rcases hc with h | h | h | h | h | h | h | h | h | h | h | h
  all_goals first
    | (rw [h]; norm_num)
    | exact absurd h (List.not_mem_nil c)

theorem charOfNat_toNat (n : ℕ) (h : n.isValidChar) : (Char.ofNat n).toNat = n := by
  unfold Char.ofNat
  rw [dif_pos h]
  rfl

theorem toLower_ne_dot (c : Char) (h : c.isAlpha = true) : c.toLower ≠ '.' := by
  have hdef : c.toLower
      = if c.toNat ≥ 65 ∧ c.toNat ≤ 90 then Char.ofNat (c.toNat + 32) else c := rfl
  rw [hdef]
  by_cases hr : c.toNat ≥ 65 ∧ c.toNat ≤ 90
  · rw [if_pos hr]
    intro he
    rcases hr with ⟨h1, h2⟩
    have hv : (c.toNat + 32).isValidChar := by
      constructor
      omega
    have h3 : (Char.ofNat (c.toNat + 32)).toNat = c.toNat + 32 := charOfNat_toNat _ hv
    rw [he] at h3
    have hd : ('.').toNat = 46 := rfl
    rw [hd] at h3
    omega
  · rw [if_neg hr]
    intro he
    rw [he] at h
    exact absurd h (by decide)

theorem capScan_implies_loaded (cw : List String) (w m : String)
    (h : capScan cw w = some m) :
    ((allowedWords cw).any (fun a => pyLower a == pyLower w)) = true := by
  induction cw with
  | nil => simp [capScan, List.findSome?] at h
  | cons c cs ih =>
    rw [capScan, List.findSome?_cons] at h
    by_cases hc : pyLower w = pyLower c ∧ w ≠ c ∧ pyIslower c = false
    · refine List.any_eq_true.mpr ⟨c, ?_, ?_⟩
      · rw [allowedWords, List.flatMap_cons]
        simp [hc.2.2]
      · exact beq_iff_eq.mpr hc.1.symm
    · rw [if_neg hc] at h
      have h2 := ih (by rw [capScan]; exact h)
      rw [List.any_eq_true] at h2 ⊢
      obtain ⟨a, ha, hpa⟩ := h2
      refine ⟨a, ?_, hpa⟩
      rw [allowedWords, List.flatMap_cons]
      exact List.mem_append_right _ ha

theorem capScan_none_of_not_known (d : String → Bool) (cw : List String) (w : String)
    (h : ¬ (w ∈ allowedWords cw ∨ spellKnown d (allowedWords cw) w = true)) :
    capScan cw w = none := by
  cases hcs : capScan cw w with
  | none => rfl
  | some m =>
    exfalso
    apply h
    have hk := capScan_implies_loaded cw w m hcs
    exact Or.inr (by simp [spellKnown, hk])

theorem processWords_snd_nil (d : String → Bool) (cw : List String) :
    ∀ ws : List String, (processWords d cw (allowedWords cw) ws).2 = [] := by
  intro ws
  induction ws with
  | nil => rfl
  | cons w ws ih =>
    simp only [processWords]
    by_cases h1 : w.length < 3
    · simpa [h1] using ih
    · by_cases h2 : w ∈ allowedWords cw ∨ spellKnown d (allowedWords cw) w = true
      · simpa [h1, h2] using ih
      · have hcap : capScan cw w = none := capScan_none_of_not_known d cw w h2
        by_cases h3 : residualSkip w = true
        · simpa [h1, h2, hcap, h3] using ih
        · simpa [h1, h2, hcap, h3] using ih

/-- The document of end-to-end scenario 4: one page whose extracted
text holds the tokens reactjs and REACTJS. -/
def reactPdf : PdfData :=
  PdfData.mk [PdfPage.mk [] [] "reactjs REACTJS"] true (some "Author") (some "Title")

/-- C3.  The claim says that with custom word list [ReactJS] both
tokens reactjs and REACTJS are recorded as capitalization errors and
the predicate returns false, the capitalization check taking effect
before the allowed-set/oracle lookup.  In the code the acceptance
lookup (word in allowed_words or spell.known([word])) runs first, and
load_words put the lowercased ReactJS into the case-insensitive
spellchecker dictionary, so both tokens are accepted there: no error
of either kind is recorded and the check passes, whatever the base
dictionary contains.  The repository test test_capitalization_rules
expects the opposite outcome, so this is a code bug.  This theorem
evaluates the code at the failing input. -/
theorem C3_scenario4_passes_in_code :
    ∀ baseDict : String → Bool,
      spell_check_outcome baseDict ["ReactJS"] "reactjs REACTJS" = ([], [])
      ∧ test_pdf_spell_check baseDict ["ReactJS"] (Except.ok reactPdf) = Except.ok () := by
  intro d
  have hal : allowedWords ["ReactJS"] = ["ReactJS"] := by decide
  have htok : original_words "reactjs REACTJS" = ["reactjs", "REACTJS"] := by decide
  have ha1 : (["ReactJS"].any fun a => pyLower a == pyLower "reactjs") = true := by decide
  have ha2 : (["ReactJS"].any fun a => pyLower a == pyLower "REACTJS") = true := by decide
  have hs1 : spellKnown d ["ReactJS"] "reactjs" = true := by
    rw [spellKnown, ha1]
    simp
  have hs2 : spellKnown d ["ReactJS"] "REACTJS" = true := by
    rw [spellKnown, ha2]
    simp
  have hl1 : ¬("reactjs".length < 3) := by decide
  have hl2 : ¬("REACTJS".length < 3) := by decide
  have hproc : processWords d ["ReactJS"] ["ReactJS"] ["reactjs", "REACTJS"] = ([], []) := by
    simp only [processWords]
    simp [hl1, hl2, hs1, hs2]
  have hout : spell_check_outcome d ["ReactJS"] "reactjs REACTJS" = ([], []) := by
    simp only [spell_check_outcome]
    rw [hal, htok, hproc]
    rfl
  refine ⟨hout, ?_⟩
  have hjoin : String.join (reactPdf.pages.map PdfPage.text) = "reactjs REACTJS" := by decide
  simp only [test_pdf_spell_check]
  rw [hjoin, hout]
  rfl

/-- C9.  The claim says the capitalization-error list is not
deduplicated, so n occurrences each triggering a capitalization error
yield n entries.  In the code no occurrence ever triggers one: any
token matching a custom word case-insensitively is accepted by the
spell.known lookup (load_words stored the lowercased custom word and
the lookup lowercases the token), which runs before the
capitalization scan, so the capitalization-error list is empty for
every base dictionary, custom word list and document text. -/
theorem C9_capitalization_list_always_empty :
    ∀ (baseDict : String → Bool) (customWords : List String) (full_text : String),
      (spell_check_outcome baseDict customWords full_text).2 = [] := by
  intro d cw t
  simp only [spell_check_outcome]
  exact processWords_snd_nil d cw (original_words t)

/-- The residual-acceptance filter as claim C8 states it: period
filter, technical substrings, exact URL keywords, provider
substrings. -/
def claimResidualSkip (word : String) : Bool :=
  strStartsWith (pyLower word) "." || strEndsWith (pyLower word) "."
    || ["js", "sql", "xml", "json"].any
        (fun tech => containsSub tech.data (pyLower word).data)
    || ["https", "http", "www", "com", "org", "net"].any
        (fun t => pyLower word == t)
    || ["github", "linkedin", "gmail", "yahoo", "hotmail"].any
        (fun t => containsSub t.data (pyLower word).data)

/-- C8 counterexample.  The tokens https and gmail satisfy the
residual filter of the claim (exact URL keyword, provider substring),
so per the claim they are excluded from the misspelling list; the
code has no such filters and records both as misspelled (base
dictionary knowing neither, no custom words). -/
theorem C8_counterexample :
    claimResidualSkip "https" = true ∧ claimResidualSkip "gmail" = true
    ∧ spell_check_outcome (fun _ => false) [] "https gmail" = (["https", "gmail"], []) := by
  refine ⟨by decide, by decide, by decide⟩

/-- C8 amended.  The classification loop records as misspelled
exactly the tokens of length at least 3 that are not accepted by the
allowed set or the oracle and do not satisfy the residual filter the
source actually has: lowercased token beginning or ending with a
literal period, or containing one of js, sql, xml, json.  There are
no exact-URL-keyword or provider-substring filters.  (Tokens with a
capitalization error need no exclusion clause: a token matching a
case-rigid custom word case-insensitively is always accepted by the
oracle, see C9.) -/
theorem C8_amended_residual_filters (d : String → Bool) (cw : List String)
    (ws : List String) :
    (processWords d cw (allowedWords cw) ws).1
      = ws.filter (fun w =>
          !decide (w.length < 3)
          && !((allowedWords cw).contains w || spellKnown d (allowedWords cw) w)
          && !residualSkip w) := by
  induction ws with
  | nil => rfl
  | cons w ws ih =>
    rw [List.filter_cons]
    simp only [processWords]
    by_cases h1 : w.length < 3
    · simp [h1, ih]
    · by_cases hmem : w ∈ allowedWords cw
      · simp [h1, hmem, ih]
      · by_cases hsp : spellKnown d (allowedWords cw) w = true
        · simp [h1, hmem, hsp, ih]
        · have h2 : ¬(w ∈ allowedWords cw ∨ spellKnown d (allowedWords cw) w = true) :=
            fun hc => hc.elim hmem hsp
          have hcap : capScan cw w = none := capScan_none_of_not_known d cw w h2
          by_cases h3 : residualSkip w = true
          · simp [h1, hmem, hsp, hcap, h3, ih]
          · simp [h1, hmem, hsp, hcap, h3, ih]

/-- Every run emitted by the tokenizer is nonempty. -/
theorem wordRunsAux_ne_nil (l : List Char) :
    ∀ acc, ∀ r ∈ wordRunsAux l acc, r ≠ [] := by
  induction l with
  | nil =>
    intro acc r hr
    rw [wordRunsAux] at hr
    by_cases h : acc.isEmpty
    · simp [h] at hr
    · simp only [h, Bool.false_eq_true, if_false, List.mem_singleton] at hr
      rw [hr]
      intro hc
      rw [List.reverse_eq_nil_iff] at hc
      exact h (List.isEmpty_iff.mpr hc)
  | cons c cs ih =>
    intro acc r hr
    rw [wordRunsAux] at hr
    by_cases hw : isWordChar c = true
    · rw [if_pos hw] at hr
      exact ih (c :: acc) r hr
    · rw [if_neg hw] at hr
      by_cases h : acc.isEmpty
      · rw [if_pos h] at hr
        exact ih [] r hr
      · rw [if_neg h] at hr
        rcases List.mem_cons.mp hr with hr1 | hr2
        · rw [hr1]
          intro hc
          rw [List.reverse_eq_nil_iff] at hc
          exact h (List.isEmpty_iff.mpr hc)
        · exact ih [] r hr2

/-- Every token the tokenizer produces is a nonempty string of ASCII
letters. -/
theorem original_words_alpha (t : String) :
    ∀ w ∈ original_words t, w.data ≠ [] ∧ w.data.all Char.isAlpha = true := by
  intro w hw
  rw [original_words, List.mem_map] at hw
  obtain ⟨r, hr, hwr⟩ := hw
  rw [List.mem_filter] at hr
  rw [← hwr]
  exact ⟨wordRunsAux_ne_nil t.data [] r hr.1, hr.2⟩

theorem dot_not_prefix (l : List Char) (hne : l ≠ []) (ha : l.all Char.isAlpha = true) :
    ('.' :: []).isPrefixOf (l.map Char.toLower) = false := by
  cases l with
  | nil => exact absurd rfl hne
  | cons c cs =>
    have hca : c.isAlpha = true := by
      rw [List.all_cons] at ha
      exact (Bool.and_eq_true_iff.mp ha).1
    have hbe : ('.' == c.toLower) = false := by
      rw [beq_eq_false_iff_ne]
      intro hcq
      exact toLower_ne_dot c hca hcq.symm
    rw [List.map_cons]
    simp [List.isPrefixOf, hbe]

/-- The residual filter without its period clauses, used to state
that the period filter is dead. -/
def residualSkipNoPeriod (word : String) : Bool :=
  ["js", "sql", "xml", "json"].any
    (fun tech => containsSub tech.data (pyLower word).data)

/-- The classification loop with the period filter removed. -/
def processWordsNoPeriod (baseDict : String → Bool) (customWords allowed : List String) :
    List String → List String × List String
  | [] => ([], [])
  | w :: ws =>
    let rest := processWordsNoPeriod baseDict customWords allowed ws
    if w.length < 3 then rest
    else if allowed.contains w || spellKnown baseDict allowed w then rest
    else match capScan customWords w with
      | some msg => (rest.1, msg :: rest.2)
      | none => if residualSkipNoPeriod w then rest else (w :: rest.1, rest.2)

/-- Outcome of the spell check with the period filter removed. -/
def spell_check_outcome_noperiod (baseDict : String → Bool) (customWords : List String)
    (full_text : String) : List String × List String :=
  let allowed := allowedWords customWords
  let pair := processWordsNoPeriod baseDict customWords allowed (original_words full_text)
  (dedupFirst [] pair.1, pair.2)

theorem residualSkip_eq_of_alpha (w : String) (hne : w.data ≠ [])
    (ha : w.data.all Char.isAlpha = true) :
    residualSkip w = residualSkipNoPeriod w := by
  have h1 : strStartsWith (pyLower w) "." = false := by
    show List.isPrefixOf ('.' :: []) (w.data.map Char.toLower) = false
    exact dot_not_prefix w.data hne ha
  have h2 : strEndsWith (pyLower w) "." = false := by
    show List.isPrefixOf (('.' :: []).reverse) ((w.data.map Char.toLower).reverse) = false
    rw [← List.map_reverse]
    refine dot_not_prefix w.data.reverse ?_ ?_
    · intro hc
      rw [List.reverse_eq_nil_iff] at hc
      exact hne hc
    · rw [List.all_reverse]
      exact ha
  rw [residualSkip, residualSkipNoPeriod, h1, h2]
  simp

theorem processWords_eq_noperiod (d : String → Bool) (cw al : List String)
    (ws : List String)
    (hws : ∀ w ∈ ws, w.data ≠ [] ∧ w.data.all Char.isAlpha = true) :
    processWords d cw al ws = processWordsNoPeriod d cw al ws := by
  induction ws with
  | nil => rfl
  | cons w ws ih =>
    have hw := hws w (List.mem_cons_self w ws)
    have hres := residualSkip_eq_of_alpha w hw.1 hw.2
    have htail := ih (fun x hx => hws x (List.mem_cons_of_mem w hx))
    rw [processWords, processWordsNoPeriod, hres, htail]

/-- C10.  Every token of the spell check consists solely of ASCII
letters and is nonempty, so no token begins or ends with a period:
the period residual filter never fires, and removing it yields an
extensionally equal predicate (same misspelled list, same
capitalization-error list) for every base dictionary, custom word
list and document text. -/
theorem C10_period_filter_dead :
    ∀ (full_text : String),
      (∀ w ∈ original_words full_text, w.data ≠ [] ∧ w.data.all Char.isAlpha = true)
      ∧ ∀ (baseDict : String → Bool) (customWords : List String),
          spell_check_outcome baseDict customWords full_text
            = spell_check_outcome_noperiod baseDict customWords full_text := by
  intro t
  refine ⟨original_words_alpha t, ?_⟩
  intro d cw
  simp only [spell_check_outcome, spell_check_outcome_noperiod]
  rw [processWords_eq_noperiod d cw (allowedWords cw) (original_words t)
    (original_words_alpha t)]

/-- C4 counterexample.  The claim says a document-access exception
raised inside a criterion is caught within that criterion and
converted to a failed (false) result, never propagated out of the
predicate.  The wrappers catch only AssertionError (plus the skip
exception for the toggle checks): a document-access error raised by
the PDF reader propagates out of the page-count wrapper instead of
becoming a false result. -/
theorem C4_counterexample :
    test_pdf_page_count_wrapper (Except.error "No such file or directory")
        = Except.error (PyErr.docAccessError "No such file or directory")
      ∧ test_pdf_page_count_wrapper (Except.error "No such file or directory")
        ≠ Except.ok false :=
  ⟨rfl, fun h => Except.noConfusion h⟩

/-- C4 amended.  Document-access exceptions are not always caught
inside the criterion predicate.  The wrappers catch only assertion
failures (plus the pytest skip exception for the four toggle checks),
so in every criterion that opens or decodes the document EXCEPT PDF
Integrity, a document-access exception propagates out of the
predicate (shown here for the page-count, file-size, font-size,
HTTPS-links, no-images, white-background, grayscale, spell-check and
structure wrappers, the toggle checks with their toggle enabled) to
the Scoring Engine, which catches it, records the criterion as failed
with the exception message as its error, and continues with the
remaining criteria unchanged.  The PDF Integrity criterion alone
converts every exception to an assertion failure inside the
predicate, so its wrapper returns false (with no error) and nothing
propagates.  In both cases one broken criterion never aborts the
run. -/
theorem C4_amended_doc_errors_reach_engine :
    ∀ (msg : String) (baseDict : String → Bool) (customWords : List String)
      (maxKB minF maxF tol : ℚ),
      test_pdf_page_count_wrapper (Except.error msg)
          = Except.error (PyErr.docAccessError msg)
      ∧ test_pdf_file_size_wrapper maxKB (Except.error msg)
          = Except.error (PyErr.docAccessError msg)
      ∧ test_pdf_font_sizes_wrapper minF maxF (Except.error msg)
          = Except.error (PyErr.docAccessError msg)
      ∧ test_pdf_links_https_wrapper true (Except.error msg)
          = Except.error (PyErr.docAccessError msg)
      ∧ test_pdf_no_images_wrapper true (Except.error msg)
          = Except.error (PyErr.docAccessError msg)
      ∧ test_pdf_background_white_wrapper true (Except.error msg)
          = Except.error (PyErr.docAccessError msg)
      ∧ test_pdf_all_pixels_no_saturation_wrapper true tol (Except.error msg)
          = Except.error (PyErr.docAccessError msg)
      ∧ test_pdf_spell_check_wrapper baseDict customWords (Except.error msg)
          = Except.error (PyErr.docAccessError msg)
      ∧ test_pdf_structure_wrapper (Except.error msg)
          = Except.error (PyErr.docAccessError msg)
      ∧ test_pdf_not_corrupted_wrapper (Except.error msg) = Except.ok false
      ∧ ∀ (n ds : String) (wt : ℚ) (rest : List Criterion),
          (checkLoop (Criterion.mk n ds (Except.error (PyErr.docAccessError msg)) wt :: rest)).2
            = CriterionResult.mk n ds wt false (some msg) :: (checkLoop rest).2 := by
  intro msg bd cw maxKB minF maxF tol
  exact ⟨rfl, rfl, rfl, rfl, rfl, rfl, rfl, rfl, rfl, rfl, fun n ds wt rest => rfl⟩

end Cvlint
